import Mathlib

/-!
Shallow embedding of the single-file FUSE filesystem `myhello.c`.

C strings are modelled as `List Char`; `strcmp(a, b) == 0` becomes list
equality, and the pointer expression `path + 1` (skip the leading byte)
becomes `List.drop 1 path`.  The fallible handlers, which return `0` on
success and `-ENOENT` / `-EACCES` on failure, are modelled with
`Except Errno`.  `off_t offset` and `size_t size` of `hello_read` are
modelled as `Nat`, matching the non-negative domain the specification
quantifies over.
-/

deriving instance DecidableEq for Except

/-- Startup configuration, from `static struct options` in myhello.c:
the file name `f_name` and the file `contents`. -/
structure Options where
  f_name : List Char
  contents : List Char
deriving DecidableEq

/-- Error results a handler can return: `-ENOENT` ("NoSuchEntry" in the
specification) and `-EACCES` ("AccessDenied"). -/
inductive Errno where
  | ENOENT
  | EACCES
deriving DecidableEq

/-- Directory bit of `st_mode` (POSIX `S_IFDIR`). -/
def S_IFDIR : Nat := 0o040000

/-- Regular-file bit of `st_mode` (POSIX `S_IFREG`). -/
def S_IFREG : Nat := 0o100000

/-- File-type mask of `st_mode` (POSIX `S_IFMT`). -/
def S_IFMT : Nat := 0o170000

/-- Access-mode mask of open flags (POSIX `O_ACCMODE`). -/
def O_ACCMODE : Nat := 3

/-- Read-only open flag (POSIX `O_RDONLY`). -/
def O_RDONLY : Nat := 0

/-- Write-only open flag (POSIX `O_WRONLY`). -/
def O_WRONLY : Nat := 1

/-- Read-write open flag (POSIX `O_RDWR`). -/
def O_RDWR : Nat := 2

/-- Append open flag (Linux `O_APPEND`). -/
def O_APPEND : Nat := 0o2000

/-- Truncate-on-open flag (Linux `O_TRUNC`). -/
def O_TRUNC : Nat := 0o1000

/-- The fields of `struct stat` that `hello_getattr` can touch, plus the
remaining metadata fields.  The C code begins with
`memset(sbuf, 0, sizeof(struct stat))`, modelled by every field
defaulting to `0`. -/
structure Stat where
  st_dev : Nat := 0
  st_ino : Nat := 0
  st_mode : Nat := 0
  st_nlink : Nat := 0
  st_uid : Nat := 0
  st_gid : Nat := 0
  st_rdev : Nat := 0
  st_size : Nat := 0
  st_blksize : Nat := 0
  st_blocks : Nat := 0
  st_atime : Nat := 0
  st_mtime : Nat := 0
  st_ctime : Nat := 0
deriving DecidableEq

/-- `hello_getattr` from myhello.c: zero the stat buffer, then fill it
for the root directory (`path == "/"`) or the configured file
(`strcmp(path + 1, options.f_name) == 0`); otherwise `-ENOENT`. -/
def hello_getattr (o : Options) (path : List Char) : Except Errno Stat :=
  if path = ['/'] then
    Except.ok { st_mode := S_IFDIR ||| 0o755, st_nlink := 2 }
  else if path.drop 1 = o.f_name then
    Except.ok { st_mode := S_IFREG ||| 0o444, st_nlink := 1,
                st_size := o.contents.length }
  else
    Except.error Errno.ENOENT

/-- `hello_readdir` from myhello.c: for any path other than `"/"` return
`-ENOENT`; otherwise emit the entries `"."`, `".."`, `options.f_name`
through the filler, in that order. -/
def hello_readdir (o : Options) (path : List Char) :
    Except Errno (List (List Char)) :=
  if path ≠ ['/'] then
    Except.error Errno.ENOENT
  else
    Except.ok [['.'], ['.', '.'], o.f_name]

/-- `hello_open` from myhello.c: `-ENOENT` unless
`strcmp(path + 1, options.f_name) == 0`, then `-EACCES` unless
`(flags & O_ACCMODE) == O_RDONLY`, otherwise success. -/
def hello_open (o : Options) (path : List Char) (flags : Nat) :
    Except Errno Unit :=
  if path.drop 1 ≠ o.f_name then
    Except.error Errno.ENOENT
  else if flags &&& O_ACCMODE ≠ O_RDONLY then
    Except.error Errno.EACCES
  else
    Except.ok ()

/-- `hello_read` from myhello.c: `-ENOENT` unless
`strcmp(path + 1, options.f_name) == 0`.  Then, with
`len = strlen(options.contents)`: if `offset < len`, clamp `size` to
`len - offset` when `offset + size > len` and copy that many bytes from
`contents + offset` (modelled by drop-then-take); if `offset >= len`,
return zero bytes. -/
def hello_read (o : Options) (path : List Char) (size offset : Nat) :
    Except Errno (List Char) :=
  if path.drop 1 ≠ o.f_name then
    Except.error Errno.ENOENT
  else
    let len := o.contents.length
    if offset < len then
      let size := if offset + size > len then len - offset else size
      Except.ok ((o.contents.drop offset).take size)
    else
      Except.ok []

/-- Path classification outcome used by the specification. -/
inductive Resolved where
  | Root
  | File
  | NotFound
deriving DecidableEq

/-- Path classification as the handlers perform it, with the branch
order of `hello_getattr`: the exact comparison with `"/"` first, then
the `path + 1` comparison against `options.f_name`. -/
def resolve (o : Options) (path : List Char) : Resolved :=
  if path = ['/'] then
    Resolved.Root
  else if path.drop 1 = o.f_name then
    Resolved.File
  else
    Resolved.NotFound

/-- Requested access modes named by the specification, mapped to the
open flags a POSIX caller passes for them: append and truncate-on-open
carry write intent in their access-mode bits. -/
inductive AccessMode where
  | readOnly
  | writeOnly
  | readWrite
  | append
  | truncate
deriving DecidableEq

/-- Open flags corresponding to each requested access mode. -/
def AccessMode.flags : AccessMode → Nat
  | .readOnly => O_RDONLY
  | .writeOnly => O_WRONLY
  | .readWrite => O_RDWR
  | .append => O_WRONLY ||| O_APPEND
  | .truncate => O_WRONLY ||| O_TRUNC

/-- The specification's `openForRead`: `hello_open` invoked with the
flags of the requested access mode. -/
def openForRead (o : Options) (path : List Char) (m : AccessMode) :
    Except Errno Unit :=
  hello_open o path m.flags

/-- One request to the store, with its arguments. -/
inductive Op where
  | opAttr (path : List Char)
  | opDir (path : List Char)
  | opOpen (path : List Char) (flags : Nat)
  | opRead (path : List Char) (size offset : Nat)
deriving DecidableEq

/-- Result payload of one request. -/
inductive OpResult where
  | statR (r : Except Errno Stat)
  | listR (r : Except Errno (List (List Char)))
  | unitR (r : Except Errno Unit)
  | bytesR (r : Except Errno (List Char))
deriving DecidableEq


/-- Execute one request against the configuration and return the result
together with the configuration the handler leaves behind.  None of the
handlers in myhello.c assigns to `options`, so each returns `o`
unchanged. -/
def runOp (o : Options) : Op → OpResult × Options
  | .opAttr p => (OpResult.statR (hello_getattr o p), o)
  | .opDir p => (OpResult.listR (hello_readdir o p), o)
  | .opOpen p f => (OpResult.unitR (hello_open o p f), o)
  | .opRead p s off => (OpResult.bytesR (hello_read o p s off), o)

/-- Thread the configuration through a sequence of requests. -/
def runOps (o : Options) : List Op → Options
  | [] => o
  | op :: rest => runOps (runOp o op).2 rest

/-- The default configuration set in `main`: name "Hello", contents
"Hello World!\n". -/
def defaultOptions : Options :=
  { f_name := "Hello".toList, contents := "Hello World!\n".toList }

/-- The custom configuration of the specification's scenario D:
name "data.txt", contents "xy". -/
def dataOptions : Options :=
  { f_name := "data.txt".toList, contents := "xy".toList }

/-- A configuration whose file name is the empty string, outside the
specification's non-empty precondition. -/
def emptyNameOptions : Options :=
  { f_name := [], contents := "xy".toList }

/-- The stat record `hello_getattr` produces for the root directory. -/
def rootStat : Stat :=
  { st_mode := S_IFDIR ||| 0o755, st_nlink := 2 }

example : hello_getattr defaultOptions "/Hello".toList =
    Except.ok { st_mode := S_IFREG ||| 0o444, st_nlink := 1, st_size := 13 } := by
  decide

example : hello_read defaultOptions "/Hello".toList 5 6 =
    Except.ok "World".toList := by decide

example : hello_read defaultOptions "/Hello".toList 10 13 =
    Except.ok [] := by decide

example : resolve defaultOptions "/Hello/".toList = Resolved.NotFound := by
  decide

/-! Helper lemmas shared by the claim theorems. -/

/-- Reading any path that passes the name check returns the drop-then-take
slice of the contents, in every offset/size case of `hello_read`. -/
theorem hello_read_eq (o : Options) (p : List Char) (size off : Nat)
    (h : p.drop 1 = o.f_name) :
    hello_read o p size off = Except.ok ((o.contents.drop off).take size) := by
  simp only [hello_read, h, ne_eq, not_true_eq_false, if_false]
  by_cases hlt : off < o.contents.length
  · simp only [if_pos hlt]
    by_cases hgt : off + size > o.contents.length
    · simp only [if_pos hgt]
      congr 1
      have hd : (o.contents.drop off).length = o.contents.length - off :=
        List.length_drop off o.contents
      rw [List.take_of_length_le (le_of_eq hd),
        List.take_of_length_le (by omega)]
    · simp only [if_neg hgt]
  · simp only [if_neg hlt]
    congr 1
    rw [List.drop_eq_nil_of_le (by omega), List.take_nil]

/-- With a non-empty file name, `resolve` classifies a path as the file
exactly when the name check of `hello_open` / `hello_read` passes. -/
theorem resolve_eq_file_iff (o : Options) (p : List Char)
    (hn : o.f_name ≠ []) :
    resolve o p = Resolved.File ↔ p.drop 1 = o.f_name := by
  unfold resolve
  by_cases h1 : p = ['/']
  · subst h1
    simp only [if_pos rfl]
    constructor
    · intro h; cases h
    · intro h; simp at h; exact absurd h hn
  · rw [if_neg h1]
    by_cases h2 : p.drop 1 = o.f_name
    · simp [h2]
    · simp [h2]

/-- A path classified as the file necessarily passes the `path + 1`
name comparison. -/
theorem resolve_file_drop (o : Options) (p : List Char)
    (h : resolve o p = Resolved.File) : p.drop 1 = o.f_name := by
  unfold resolve at h
  by_cases h1 : p = ['/']
  · rw [if_pos h1] at h; cases h
  · rw [if_neg h1] at h
    by_cases h2 : p.drop 1 = o.f_name
    · exact h2
    · rw [if_neg h2] at h; cases h

/-- Claim C1: for every path resolving to the file and all non-negative
offset and maxLength, `hello_read` never fails: it returns the slice
`contents[offset : min(offset + maxLength, length)]` (drop-then-take),
whose length is `min maxLength (length - offset)`, and the slice is
empty whenever `offset ≥ length(contents)` — end-of-file, not an
error. -/
theorem read_range_total (o : Options) (p : List Char) (off maxLen : Nat)
    (h : resolve o p = Resolved.File) :
    hello_read o p maxLen off =
      Except.ok ((o.contents.drop off).take maxLen) ∧
    ((o.contents.drop off).take maxLen).length =
      min maxLen (o.contents.length - off) ∧
    (o.contents.length ≤ off → (o.contents.drop off).take maxLen = []) := by
  refine ⟨hello_read_eq o p maxLen off (resolve_file_drop o p h), ?_, ?_⟩
  · simp [List.length_take, List.length_drop]
  · intro hle
    rw [List.drop_eq_nil_of_le hle, List.take_nil]

/-- Witness for C1: the default configuration, path "/Hello", offset 6,
maxLength 5 (this is the "readRange returns \"World\"" scenario). -/
theorem read_range_total_witness :
    resolve defaultOptions "/Hello".toList = Resolved.File ∧
    (hello_read defaultOptions "/Hello".toList 5 6 =
        Except.ok ((defaultOptions.contents.drop 6).take 5) ∧
      ((defaultOptions.contents.drop 6).take 5).length =
        min 5 (defaultOptions.contents.length - 6) ∧
      (defaultOptions.contents.length ≤ 6 →
        (defaultOptions.contents.drop 6).take 5 = [])) :=
  ⟨by decide, read_range_total defaultOptions "/Hello".toList 6 5 (by decide)⟩

/-- Claim C2: `openForRead` fails with NoSuchEntry (`ENOENT`) for every
path not resolving to the file regardless of access mode — the name
check precedes the access-mode check; on the file path it succeeds for
read-only and fails with AccessDenied (`EACCES`) for write, read-write,
append, and truncate-on-open. -/
theorem open_for_read_spec (o : Options) (p : List Char)
    (hn : o.f_name ≠ []) :
    (∀ m : AccessMode, resolve o p ≠ Resolved.File →
      openForRead o p m = Except.error Errno.ENOENT) ∧
    (resolve o p = Resolved.File →
      openForRead o p AccessMode.readOnly = Except.ok () ∧
      ∀ m : AccessMode, m ≠ AccessMode.readOnly →
        openForRead o p m = Except.error Errno.EACCES) := by
  constructor
  · intro m hnot
    have hd : p.drop 1 ≠ o.f_name := fun hEq =>
      hnot ((resolve_eq_file_iff o p hn).mpr hEq)
    rw [List.drop_one] at hd
    cases m <;> simp [openForRead, hello_open, hd]
  · intro hfile
    have hd : p.drop 1 = o.f_name := resolve_file_drop o p hfile
    rw [List.drop_one] at hd
    constructor
    · simp [openForRead, hello_open, hd, AccessMode.flags, O_RDONLY,
        O_ACCMODE]
    · intro m hm
      cases m
      · exact absurd rfl hm
      all_goals
        simp [openForRead, hello_open, hd, AccessMode.flags, O_RDONLY,
          O_ACCMODE, O_WRONLY, O_RDWR, O_APPEND, O_TRUNC]

/-- Witness for C2: the default configuration and the path "/Hello". -/
theorem open_for_read_spec_witness :
    defaultOptions.f_name ≠ [] ∧
    ((∀ m : AccessMode,
        resolve defaultOptions "/Hello".toList ≠ Resolved.File →
        openForRead defaultOptions "/Hello".toList m =
          Except.error Errno.ENOENT) ∧
     (resolve defaultOptions "/Hello".toList = Resolved.File →
        openForRead defaultOptions "/Hello".toList AccessMode.readOnly =
          Except.ok () ∧
        ∀ m : AccessMode, m ≠ AccessMode.readOnly →
          openForRead defaultOptions "/Hello".toList m =
            Except.error Errno.EACCES)) :=
  ⟨by decide, open_for_read_spec defaultOptions "/Hello".toList (by decide)⟩

/-- Claim C3: `resolve` always yields exactly one of Root, File or
NotFound; `hello_getattr` fails with NoSuchEntry (`ENOENT`) iff
`resolve` yields NotFound; and for slash-prefixed paths with a
non-empty configured name it succeeds exactly on the root path and the
configured file path. -/
theorem getattr_error_iff (o : Options) (p : List Char)
    (hp : p.head? = some '/') (hn : o.f_name ≠ []) :
    (resolve o p = Resolved.Root ∨ resolve o p = Resolved.File ∨
      resolve o p = Resolved.NotFound) ∧
    (hello_getattr o p = Except.error Errno.ENOENT ↔
      resolve o p = Resolved.NotFound) ∧
    ((∃ s, hello_getattr o p = Except.ok s) ↔
      (p = ['/'] ∨ p = '/' :: o.f_name)) := by
  obtain ⟨rest, rfl⟩ : ∃ rest, p = '/' :: rest := by
    cases p with
    | nil => cases hp
    | cons c rest =>
      have hc : c = '/' := by simpa using hp
      exact ⟨rest, by rw [hc]⟩
  have hn' : ¬([] = o.f_name) := fun h => hn h.symm
  refine ⟨?_, ?_, ?_⟩
  · cases hres : resolve o ('/' :: rest) <;> simp
  · unfold hello_getattr resolve
    by_cases h1 : ('/' :: rest) = ['/']
    · simp [h1]
    · by_cases h2 : ('/' :: rest).drop 1 = o.f_name
      · simp [h1, h2]
      · simp [h1, h2]
  · by_cases h1 : rest = []
    · subst h1
      simp [hello_getattr]
    · by_cases h2 : rest = o.f_name
      · subst h2
        unfold hello_getattr
        rw [if_neg (by simp [h1]),
          if_pos (show List.drop 1 ('/' :: o.f_name) = o.f_name from rfl)]
        simp
      · unfold hello_getattr
        rw [if_neg (by simp [h1]), if_neg (by simpa using h2)]
        simp [h1, h2]

/-- Witness for C3: the default configuration and the path "/missing",
which resolves to NotFound. -/
theorem getattr_error_iff_witness :
    ("/missing".toList.head? = some '/') ∧ defaultOptions.f_name ≠ [] ∧
    ((resolve defaultOptions "/missing".toList = Resolved.Root ∨
      resolve defaultOptions "/missing".toList = Resolved.File ∨
      resolve defaultOptions "/missing".toList = Resolved.NotFound) ∧
     (hello_getattr defaultOptions "/missing".toList =
        Except.error Errno.ENOENT ↔
      resolve defaultOptions "/missing".toList = Resolved.NotFound) ∧
     ((∃ s, hello_getattr defaultOptions "/missing".toList =
        Except.ok s) ↔
      ("/missing".toList = ['/'] ∨
       "/missing".toList = '/' :: defaultOptions.f_name))) :=
  ⟨by decide, by decide,
    getattr_error_iff defaultOptions "/missing".toList (by decide)
      (by decide)⟩

/-- Claim C4: `hello_getattr` reports for the root path directory
metadata (kind directory, permissions 0755 — rwx for the owner, r-x
for others — link count 2, size 0 by the zeroed buffer) and for the
configured file path regular-file metadata (kind regular file,
permissions 0444 — read-only for everyone — link count 1, size equal
to the byte length of the contents), for every configuration. -/
theorem getattr_metadata (o : Options) (hn : o.f_name ≠ []) :
    hello_getattr o ['/'] =
      Except.ok { st_mode := S_IFDIR ||| 0o755, st_nlink := 2 } ∧
    (S_IFDIR ||| 0o755) &&& S_IFMT = S_IFDIR ∧
    (S_IFDIR ||| 0o755) &&& 0o777 = 0o755 ∧
    hello_getattr o ('/' :: o.f_name) =
      Except.ok { st_mode := S_IFREG ||| 0o444, st_nlink := 1,
                  st_size := o.contents.length } ∧
    (S_IFREG ||| 0o444) &&& S_IFMT = S_IFREG ∧
    (S_IFREG ||| 0o444) &&& 0o777 = 0o444 := by
  refine ⟨rfl, by decide, by decide, ?_, by decide, by decide⟩
  unfold hello_getattr
  rw [if_neg (by simp [hn]),
    if_pos (show List.drop 1 ('/' :: o.f_name) = o.f_name from rfl)]

/-- Witness for C4: the default configuration. -/
theorem getattr_metadata_witness :
    defaultOptions.f_name ≠ [] ∧
    (hello_getattr defaultOptions ['/'] =
      Except.ok { st_mode := S_IFDIR ||| 0o755, st_nlink := 2 } ∧
    (S_IFDIR ||| 0o755) &&& S_IFMT = S_IFDIR ∧
    (S_IFDIR ||| 0o755) &&& 0o777 = 0o755 ∧
    hello_getattr defaultOptions ('/' :: defaultOptions.f_name) =
      Except.ok { st_mode := S_IFREG ||| 0o444, st_nlink := 1,
                  st_size := defaultOptions.contents.length } ∧
    (S_IFREG ||| 0o444) &&& S_IFMT = S_IFREG ∧
    (S_IFREG ||| 0o444) &&& 0o777 = 0o444) :=
  ⟨by decide, getattr_metadata defaultOptions (by decide)⟩

/-- Claim C5: for every configuration whose name is non-empty and
slash-free, listing "/" returns exactly the entries ".", "..",
f_name in that order; listing any other path — including the
configured file's own path — fails with NoSuchEntry (`ENOENT`). -/
theorem readdir_spec (o : Options) (hn : o.f_name ≠ [])
    (hs : '/' ∉ o.f_name) :
    hello_readdir o ['/'] = Except.ok [['.'], ['.', '.'], o.f_name] ∧
    (∀ p, p ≠ ['/'] → hello_readdir o p = Except.error Errno.ENOENT) ∧
    hello_readdir o ('/' :: o.f_name) = Except.error Errno.ENOENT := by
  refine ⟨rfl, ?_, ?_⟩
  · intro p hp
    unfold hello_readdir
    rw [if_pos hp]
  · unfold hello_readdir
    rw [if_pos (by simp [hn])]

/-- Witness for C5: the custom configuration of the specification's
scenario D (name "data.txt", contents "xy"). -/
theorem readdir_spec_witness :
    (dataOptions.f_name ≠ []) ∧
    ('/' ∉ dataOptions.f_name) ∧
    (hello_readdir dataOptions ['/'] =
      Except.ok [['.'], ['.', '.'], dataOptions.f_name] ∧
    (∀ p, p ≠ ['/'] →
      hello_readdir dataOptions p = Except.error Errno.ENOENT) ∧
    hello_readdir dataOptions ('/' :: dataOptions.f_name) =
      Except.error Errno.ENOENT) :=
  ⟨by decide, by decide, readdir_spec dataOptions (by decide) (by decide)⟩

/-- Claim C6: for slash-prefixed paths and a non-empty configured name,
`resolve` returns Root exactly on "/", File exactly on the
byte-for-byte equal path "/" ++ f_name, and NotFound on every other
path (trailing slashes, different case, extra segments). -/
theorem resolve_exact (o : Options) (p : List Char)
    (hp : p.head? = some '/') (hn : o.f_name ≠ []) :
    (resolve o p = Resolved.Root ↔ p = ['/']) ∧
    (resolve o p = Resolved.File ↔ p = '/' :: o.f_name) ∧
    (resolve o p = Resolved.NotFound ↔
      (p ≠ ['/'] ∧ p ≠ '/' :: o.f_name)) := by
  obtain ⟨rest, rfl⟩ : ∃ rest, p = '/' :: rest := by
    cases p with
    | nil => cases hp
    | cons c rest =>
      have hc : c = '/' := by simpa using hp
      exact ⟨rest, by rw [hc]⟩
  unfold resolve
  by_cases h1 : rest = []
  · subst h1
    simp [hn]
  · rw [if_neg (by simp [h1])]
    by_cases h2 : rest = o.f_name
    · subst h2
      rw [if_pos (show List.drop 1 ('/' :: o.f_name) = o.f_name from rfl)]
      simp [h1]
    · rw [if_neg (by simpa using h2)]
      simp [h1, h2]

/-- Witness for C6: the default configuration and the trailing-slash
path "/Hello/", which resolves to NotFound. -/
theorem resolve_exact_witness :
    ("/Hello/".toList.head? = some '/') ∧ defaultOptions.f_name ≠ [] ∧
    ((resolve defaultOptions "/Hello/".toList = Resolved.Root ↔
        "/Hello/".toList = ['/']) ∧
     (resolve defaultOptions "/Hello/".toList = Resolved.File ↔
        "/Hello/".toList = '/' :: defaultOptions.f_name) ∧
     (resolve defaultOptions "/Hello/".toList = Resolved.NotFound ↔
        ("/Hello/".toList ≠ ['/'] ∧
         "/Hello/".toList ≠ '/' :: defaultOptions.f_name))) :=
  ⟨by decide, by decide,
    resolve_exact defaultOptions "/Hello/".toList (by decide) (by decide)⟩

/-- Each handler leaves the configuration exactly as it received it. -/
theorem runOp_snd (o : Options) (op : Op) : (runOp o op).2 = o := by
  cases op <;> rfl

/-- Claim C7: every operation is a pure function of the configuration
and its arguments — no handler mutates `contents`, `f_name` or any
other state — so after any sequence of operations the configuration
equals the startup configuration. -/
theorem config_immutable (o : Options) (ops : List Op) :
    runOps o ops = o := by
  induction ops with
  | nil => rfl
  | cons op rest ih =>
    show runOps (runOp o op).2 rest = o
    rw [runOp_snd]
    exact ih

/-- Claim C8: for every operation and argument tuple, two successive
identical calls — the configuration left by the first call feeding the
second — return identical results: there is no cursor, open-handle
state, or other drift between calls. -/
theorem repeat_call_idempotent (o : Options) (op : Op) :
    (runOp (runOp o op).2 op).1 = (runOp o op).1 := by
  cases op <;> rfl

/-- Claim C9: `hello_open` and `hello_read` compare only the characters
after the leading byte against `f_name`, with no separate root check;
with an empty configured name the root path "/" is treated as the
file — `resolve` still classifies it as Root, yet opening it read-only
succeeds and reading it serves the contents — so the "root is never
the file" invariant depends on the non-empty-name precondition. -/
theorem empty_name_serves_root (o : Options) (h : o.f_name = []) :
    resolve o ['/'] = Resolved.Root ∧
    openForRead o ['/'] AccessMode.readOnly = Except.ok () ∧
    ∀ size off, hello_read o ['/'] size off =
      Except.ok ((o.contents.drop off).take size) := by
  refine ⟨rfl, ?_, ?_⟩
  · simp [openForRead, hello_open, h, AccessMode.flags, O_RDONLY,
      O_ACCMODE]
  · intro size off
    exact hello_read_eq o ['/'] size off (by simp [h])

/-- Witness for C9: an empty-name configuration with contents "xy". -/
theorem empty_name_serves_root_witness :
    emptyNameOptions.f_name = [] ∧
    (resolve emptyNameOptions ['/'] = Resolved.Root ∧
     openForRead emptyNameOptions ['/'] AccessMode.readOnly =
       Except.ok () ∧
     ∀ size off, hello_read emptyNameOptions ['/'] size off =
       Except.ok ((emptyNameOptions.contents.drop off).take size)) :=
  ⟨by decide, empty_name_serves_root emptyNameOptions (by decide)⟩

/-- Claim C10: every successful `hello_getattr` call leaves every
metadata field other than mode, link count and size at the zero the
`memset` put there — timestamps, ownership, device and inode fields
are zero for both entries — and the root's reported size is 0. -/
theorem getattr_zeroed_fields (o : Options) (p : List Char) (s : Stat)
    (h : hello_getattr o p = Except.ok s) :
    s.st_dev = 0 ∧ s.st_ino = 0 ∧ s.st_uid = 0 ∧ s.st_gid = 0 ∧
    s.st_rdev = 0 ∧ s.st_blksize = 0 ∧ s.st_blocks = 0 ∧
    s.st_atime = 0 ∧ s.st_mtime = 0 ∧ s.st_ctime = 0 ∧
    (p = ['/'] → s.st_size = 0) := by
  unfold hello_getattr at h
  by_cases h1 : p = ['/']
  · rw [if_pos h1] at h
    cases h
    simp
  · rw [if_neg h1] at h
    by_cases h2 : p.drop 1 = o.f_name
    · rw [if_pos h2] at h
      cases h
      simp [h1]
    · rw [if_neg h2] at h
      cases h

/-- Witness for C10: the root path under the default configuration. -/
theorem getattr_zeroed_fields_witness :
    hello_getattr defaultOptions ['/'] = Except.ok rootStat ∧
    (rootStat.st_dev = 0 ∧ rootStat.st_ino = 0 ∧ rootStat.st_uid = 0 ∧
     rootStat.st_gid = 0 ∧ rootStat.st_rdev = 0 ∧
     rootStat.st_blksize = 0 ∧ rootStat.st_blocks = 0 ∧
     rootStat.st_atime = 0 ∧ rootStat.st_mtime = 0 ∧
     rootStat.st_ctime = 0 ∧ (['/'] = ['/'] → rootStat.st_size = 0)) :=
  ⟨by decide,
    getattr_zeroed_fields defaultOptions ['/'] rootStat (by decide)⟩
